import Mathlib

/-!
Verification development for the gym-occupancy web application
(`nig_gym_occupancy_webapp.py`).  The program keeps two tables in a
remote spreadsheet: `active` (currently present sessions) and `log`
(every session ever started).  Below, the module-level eviction sweep,
the Login and Logout button handlers, and the occupancy display are
embedded as pure Lean functions over an explicit store state, and the
spec's claims about them are settled as theorems.
-/

namespace GymOccupancy

/-- Maximum session duration in minutes (source line 16). -/
def MAX_SESSION_DUR : ℤ := 180

/-- Maximum gym capacity (source line 17). -/
def MAX_CAPACITY : ℕ := 2

/-- Timezone offset in hours (source line 18, `+9.0`, an exact integer). -/
def TIMEZONE_OFFSET : ℤ := 9

/-- Timestamps are modelled as integer seconds on the single implicit
timeline the program uses (all datetimes are timezone-naive). -/
abbrev Timestamp := ℤ

/-- Embedding of `datetime_now` (source lines 39-43): current UTC time
shifted by a fixed hour offset, returned as a naive timestamp. -/
def datetime_now (inputTimezoneOffset : ℤ) (utcNow : ℤ) : Timestamp :=
  utcNow + inputTimezoneOffset * 3600

/-- One row of the `active` worksheet (columns A-E, source lines 71-73). -/
structure Session where
  name : String
  lab : String
  start : Timestamp
  finish_estimation : Timestamp
  duration_estimation : ℤ
deriving Repr, DecidableEq

instance : Inhabited Session := ⟨⟨"", "", 0, 0, 0⟩⟩

/-- One row of the `log` worksheet (columns A-G, source lines 78-88); the
two trailing columns are absent until logout fills them. -/
structure LogEntry where
  name : String
  lab : String
  start : Timestamp
  finish_estimation : Timestamp
  duration_estimation : ℤ
  finish_actual : Option Timestamp
  duration_actual : Option ℤ
deriving Repr, DecidableEq

instance : Inhabited LogEntry := ⟨⟨"", "", 0, 0, 0, none, none⟩⟩

/-- The two worksheets backing the app.  Within one load cycle the
loaded dataframes mirror the worksheets row for row. -/
structure StoreState where
  active : List Session
  log : List LogEntry
deriving Repr, DecidableEq

/-- Age of an active session in minutes, embedding
`(current_time - df.start) / np.timedelta64(1, "m")` (source lines
101-103); exact rational division by 60 of the age in seconds. -/
def deltaMinutes (now : Timestamp) (s : Session) : ℚ :=
  ((now - s.start : ℤ) : ℚ) / 60

/-- The predicate selecting a row into `old_entries` (source line 103):
age in minutes strictly greater than `MAX_SESSION_DUR`. -/
def isStale (now : Timestamp) (s : Session) : Bool :=
  decide (deltaMinutes now s > (MAX_SESSION_DUR : ℚ))

/-- Embedding of `old_entries` (source line 103): the dataframe indices
(ascending) of the rows whose age exceeds the maximum. -/
def oldEntries (now : Timestamp) (df : List Session) : List ℕ :=
  (List.range df.length).filter (fun i => isStale now (df.getD i default))

/-- Embedding of the removal loop (source lines 106-108): for each
precomputed index, delete that row of the live worksheet
(`worksheet_active.delete_rows(int(entry) + 2)`), one call at a time.
The worksheet row `entry + 2` is list position `entry` (row 1 is the
header); deleting a position beyond the current data is a no-op on the
data, matching deletion of an empty grid row. -/
def evictSweep (now : Timestamp) (sheet : List Session) : List Session :=
  (oldEntries now sheet).foldl (fun ws i => ws.eraseIdx i) sheet

/-- Embedding of `df["name"].unique()` (source line 248): distinct names
in first-occurrence order. -/
def uniqueNames : List String → List String
  | [] => []
  | x :: xs => x :: (uniqueNames xs).filter (fun y => y != x)

/-- First index at which a predicate holds, embedding the pandas idiom
`df.index[mask].tolist()[0]` / `.values[0]` (fails when no row matches). -/
def firstIdx? (p : α → Bool) : List α → Option ℕ
  | [] => none
  | a :: l => if p a then some 0 else (firstIdx? p l).map (fun i => i + 1)

/-- Pointwise update of a list at one position (no-op out of range),
modelling `worksheet.update_cell` on the row at that position. -/
def updateAt : List α → ℕ → (α → α) → List α
  | [], _, _ => []
  | x :: xs, 0, f => f x :: xs
  | x :: xs, n + 1, f => x :: updateAt xs n f

/-- Validation failures of the Login handler (source lines 211-220). -/
inductive LoginError where
  | emptyName
  | emptyLab
  | duplicateName
deriving Repr, DecidableEq

/-- Embedding of the Login button handler (source lines 207-231).
Checks, in order: empty name, empty lab, name already present among the
active names; on failure the store is untouched.  On success it appends
`input_row = [name, lab, start_time, finish_time, dur_input]` (with
`start_time = datetime_now(TIMEZONE_OFFSET)` and
`finish_time = start_time + minutes(dur_input)`, source lines 194-196)
to both worksheets; the log row's two trailing columns stay absent. -/
def login (utcNow : ℤ) (nameInput labInput : String) (durInput : ℤ)
    (st : StoreState) : Option LoginError × StoreState :=
  if nameInput.length = 0 then (some LoginError.emptyName, st)
  else if labInput.length = 0 then (some LoginError.emptyLab, st)
  else if st.active.any (fun s => s.name == nameInput) then
    (some LoginError.duplicateName, st)
  else
    (none,
     ⟨st.active ++
        [⟨nameInput, labInput, datetime_now TIMEZONE_OFFSET utcNow,
          datetime_now TIMEZONE_OFFSET utcNow + durInput * 60, durInput⟩],
      st.log ++
        [⟨nameInput, labInput, datetime_now TIMEZONE_OFFSET utcNow,
          datetime_now TIMEZONE_OFFSET utcNow + durInput * 60, durInput, none, none⟩]⟩)

/-- Failures of the Logout handler: `noActiveRow` models the index error
raised by `.values[0]` when no active row matches the selected name
(source line 274); `logNotFound` models the index error raised by
`.tolist()[0]` when no log row matches `(name, start)` (source lines
275-280).  Either is raised before any worksheet write. -/
inductive LogoutError where
  | noActiveRow
  | logNotFound
deriving Repr, DecidableEq

/-- Embedding of `duration_actual` (source line 259):
`int((finish_actual - start_time).total_seconds() / 60)`, i.e. the
seconds difference divided by 60 and truncated toward zero. -/
def durationActual (finishActual startTime : Timestamp) : ℤ :=
  Int.tdiv (finishActual - startTime) 60

/-- Individual worksheet writes issued by the Logout handler. -/
inductive StoreOp where
  | updateLogFinish (rowIdx : ℕ) (v : Timestamp)
  | updateLogDuration (rowIdx : ℕ) (v : ℤ)
  | deleteActive (rowIdx : ℕ)
deriving Repr, DecidableEq

/-- Write of log column F (`finish_actual`) into one row. -/
def setFinishActual (v : Timestamp) (e : LogEntry) : LogEntry :=
  { e with finish_actual := some v }

/-- Write of log column G (`duration_actual`) into one row. -/
def setDurationActual (v : ℤ) (e : LogEntry) : LogEntry :=
  { e with duration_actual := some v }

/-- Effect of one worksheet write on the store: the two `update_cell`
calls fill the trailing columns of the log row (source lines 282-283),
`delete_rows` removes the active row (source line 286). -/
def applyOp (st : StoreState) : StoreOp → StoreState
  | StoreOp.updateLogFinish i v =>
      ⟨st.active, updateAt st.log i (setFinishActual v)⟩
  | StoreOp.updateLogDuration i v =>
      ⟨st.active, updateAt st.log i (setDurationActual v)⟩
  | StoreOp.deleteActive i =>
      ⟨st.active.eraseIdx i, st.log⟩

/-- The three writes of a successful logout, in source order (lines
282-286): update log column F, update log column G, delete the active
row. -/
def logoutOps (utcNow : ℤ) (st : StoreState) (ai li : ℕ) : List StoreOp :=
  [StoreOp.updateLogFinish li (datetime_now TIMEZONE_OFFSET utcNow),
   StoreOp.updateLogDuration li
     (durationActual (datetime_now TIMEZONE_OFFSET utcNow) (st.active.getD ai default).start),
   StoreOp.deleteActive ai]

/-- Embedding of the Logout button handler (source lines 271-286).
Reads `start` from the first active row matching the selected name
(failing if none), locates the first log row matching `(name, start)`
(failing with the log-entry-not-found error if none), then performs the
three store writes of `logoutOps` in order.  A failure occurs before any
write, leaving the store untouched. -/
def logout (utcNow : ℤ) (nameLogout : String) (st : StoreState) :
    Option LogoutError × StoreState × List StoreOp :=
  match firstIdx? (fun s => s.name == nameLogout) st.active with
  | none => (some LogoutError.noActiveRow, st, [])
  | some ai =>
    match firstIdx?
        (fun e => e.name == nameLogout && e.start == (st.active.getD ai default).start)
        st.log with
    | none => (some LogoutError.logNotFound, st, [])
    | some li =>
      (none, (logoutOps utcNow st ai li).foldl applyOp st, logoutOps utcNow st ai li)

/-- The Logout tab renders the `st.button("Logout")` control
unconditionally (source line 271): only the duration display is inside
the `len(df.index) > 0` guard (source line 250), never the button. -/
def logoutButtonRendered (_ : StoreState) : Bool :=
  true

/-- Default selection of the name selectbox (source line 248): the first
of `df["name"].unique()`, absent when the active table is empty. -/
def tab3SelectedName (df : List Session) : Option String :=
  (uniqueNames (df.map (fun s => s.name))).head?

/-- Pressing Logout with the default selection.  With an empty active
table the selectbox holds no option (`None`); the handler still runs and
its first row lookup fails before any worksheet write. -/
def tab3LogoutPress (utcNow : ℤ) (st : StoreState) :
    Option LogoutError × StoreState × List StoreOp :=
  match tab3SelectedName st.active with
  | none => (some LogoutError.noActiveRow, st, [])
  | some nm => logout utcNow nm st

/-- The four advisory capacity states of the Home tab. -/
inductive OccupancyStatus where
  | overCapacity
  | atCapacity
  | emptyGym
  | underCapacity
deriving Repr, DecidableEq

/-- Embedding of the occupancy display branch (source lines 121-128): a
pure function of the active row count. -/
def occupancyStatus (n : ℕ) : OccupancyStatus :=
  if n > MAX_CAPACITY then OccupancyStatus.overCapacity
  else if n = MAX_CAPACITY then OccupancyStatus.atCapacity
  else if n = 0 then OccupancyStatus.emptyGym
  else OccupancyStatus.underCapacity

/-- Minimum of the duration number input (source line 190,
`min_value=10`): the widget never yields a smaller value. -/
def durInputMinValue : ℤ := 10

/-! Example fixtures used by counterexamples and witnesses. -/

/-- A session aged 200 minutes when evaluated at time 0. -/
def sessA : Session := ⟨"A", "L", -12000, 0, 30⟩

/-- A session aged 190 minutes when evaluated at time 0. -/
def sessB : Session := ⟨"B", "L", -11400, 0, 30⟩

/-- A session aged 50 minutes when evaluated at time 0. -/
def sessC : Session := ⟨"C", "L", -3000, 0, 30⟩

/-- A session aged exactly 179 minutes when evaluated at time 0. -/
def sess179 : Session := ⟨"D", "L", -10740, 0, 30⟩

/-- A session aged exactly 180 minutes when evaluated at time 0. -/
def sess180 : Session := ⟨"E", "L", -10800, 0, 30⟩

/-- A session aged exactly 181 minutes when evaluated at time 0. -/
def sess181 : Session := ⟨"F", "L", -10860, 0, 30⟩

/-- The log entry mirroring the active session of `stOne`. -/
def entryA : LogEntry := ⟨"A", "L", 0, 1800, 30, none, none⟩

/-- A consistent store with one active session named `A` (started at
time 0, estimated 30 minutes) and its matching log entry. -/
def stOne : StoreState := ⟨[⟨"A", "L", 0, 1800, 30⟩], [entryA]⟩

/-- A drifted store: session `A` is active but no log row matches
`(name, start)`. -/
def stDrift : StoreState := ⟨[⟨"A", "L", 0, 1800, 30⟩], []⟩

/-! Helper lemmas (shared). -/

/-- The rational age-in-minutes comparison of the eviction predicate is
equivalent to an integer comparison on seconds. -/
theorem deltaMinutes_gt_iff (now : Timestamp) (s : Session) :
    deltaMinutes now s > (MAX_SESSION_DUR : ℚ) ↔ MAX_SESSION_DUR * 60 < now - s.start := by
  unfold deltaMinutes
  rw [gt_iff_lt, lt_div_iff₀ (by norm_num : (0:ℚ) < 60)]
  constructor
  · intro h; exact_mod_cast h
  · intro h; exact_mod_cast h

/-- Computable restatement of `isStale` over the integers. -/
theorem isStale_eq (now : Timestamp) (s : Session) :
    isStale now s = decide (MAX_SESSION_DUR * 60 < now - s.start) := by
  unfold isStale
  rw [decide_eq_decide]
  exact deltaMinutes_gt_iff now s

/-- An index returned by `firstIdx?` is within the list. -/
theorem firstIdx?_lt_length {p : α → Bool} :
    ∀ {l : List α} {i : ℕ}, firstIdx? p l = some i → i < l.length
  | [], i, h => by simp [firstIdx?] at h
  | a :: l, i, h => by
      by_cases hp : p a
      · simp [firstIdx?, hp] at h
        simp only [List.length_cons]
        omega
      · simp [firstIdx?, hp] at h
        obtain ⟨j, hj, rfl⟩ := h
        have := firstIdx?_lt_length hj
        simp only [List.length_cons]
        omega

/-- The element at an index returned by `firstIdx?` satisfies the
predicate. -/
theorem firstIdx?_getD {p : α → Bool} (d : α) :
    ∀ {l : List α} {i : ℕ}, firstIdx? p l = some i → p (l.getD i d) = true
  | [], i, h => by simp [firstIdx?] at h
  | a :: l, i, h => by
      by_cases hp : p a
      · simp [firstIdx?, hp] at h
        subst h
        simpa using hp
      · simp [firstIdx?, hp] at h
        obtain ⟨j, hj, rfl⟩ := h
        simpa using firstIdx?_getD d hj

/-- Updating a position does not change the length. -/
theorem updateAt_length (f : α → α) :
    ∀ (l : List α) (i : ℕ), (updateAt l i f).length = l.length
  | [], _ => rfl
  | _ :: _, 0 => rfl
  | x :: xs, n + 1 => by simp [updateAt, updateAt_length f xs n]

/-- Reading back the updated position. -/
theorem updateAt_getD (f : α → α) (d : α) :
    ∀ (l : List α) (i : ℕ), i < l.length → (updateAt l i f).getD i d = f (l.getD i d)
  | [], i, h => by simp at h
  | x :: xs, 0, _ => rfl
  | x :: xs, n + 1, h => by
      simp only [updateAt, List.getD_cons_succ]
      exact updateAt_getD f d xs n (by simpa using h)

/-! Claim theorems. -/

/-- C1: the claim states that a sweep with several stale sessions
removes exactly the stale ones, independent of removal order.  The code
deletes worksheet rows one call at a time using row numbers computed
before any deletion, so after the first deletion the remaining rows have
shifted: on an active table whose sessions are aged 200, 190 and 50
minutes (the first two stale), the sweep leaves exactly the stale
190-minute session and deletes the fresh 50-minute one, while the
claimed behaviour would leave exactly the fresh session. -/
theorem evict_sweep_multi_stale_bug :
    isStale 0 sessA = true ∧ isStale 0 sessB = true ∧ isStale 0 sessC = false ∧
    evictSweep 0 [sessA, sessB, sessC] = [sessB] ∧
    [sessA, sessB, sessC].filter (fun s => ! isStale 0 s) = [sessC] := by
  refine ⟨?_, ?_, ?_, ?_, ?_⟩ <;>
    simp only [evictSweep, oldEntries, isStale_eq] <;> decide

/-- C4: a session index is selected into `old_entries` precisely when
its age in minutes is strictly greater than `MAX_SESSION_DUR`; in a load
cycle with a single active session, the sweep removes the session
precisely under the same strict comparison (ages of exactly 180 or 179
minutes are retained, 181 is removed, as the witness instantiates). -/
theorem old_entries_selects_iff (now : Timestamp) (df : List Session) (i : ℕ)
    (h : i < df.length) :
    (i ∈ oldEntries now df ↔ deltaMinutes now (df.getD i default) > (MAX_SESSION_DUR : ℚ)) ∧
    (∀ s : Session,
      evictSweep now [s] = if deltaMinutes now s > (MAX_SESSION_DUR : ℚ) then [] else [s]) := by
  constructor
  · unfold oldEntries
    rw [List.mem_filter, List.mem_range]
    simp [h, isStale]
  · intro s
    by_cases hs : deltaMinutes now s > (MAX_SESSION_DUR : ℚ)
    · rw [if_pos hs]
      have : isStale now s = true := by unfold isStale; exact decide_eq_true hs
      simp [evictSweep, oldEntries, List.range, List.range.loop, this]
    · rw [if_neg hs]
      have : isStale now s = false := by unfold isStale; simpa using hs
      simp [evictSweep, oldEntries, List.range, List.range.loop, this]

/-- Witness for C4 at concrete sessions aged 181, 179 and 180 minutes. -/
theorem old_entries_selects_iff_witness :
    (0 ∈ oldEntries 0 [sess181]) ∧
    evictSweep 0 [sess179] = [sess179] ∧
    evictSweep 0 [sess180] = [sess180] ∧
    evictSweep 0 [sess181] = [] := by
  have h := old_entries_selects_iff 0 [sess181] 0 (by decide)
  refine ⟨h.1.mpr ((deltaMinutes_gt_iff 0 sess181).mpr (by decide)), ?_, ?_, ?_⟩
  · rw [h.2 sess179, if_neg]
    intro hc
    exact absurd ((deltaMinutes_gt_iff 0 sess179).mp hc) (by decide)
  · rw [h.2 sess180, if_neg]
    intro hc
    exact absurd ((deltaMinutes_gt_iff 0 sess180).mp hc) (by decide)
  · rw [h.2 sess181, if_pos ((deltaMinutes_gt_iff 0 sess181).mpr (by decide))]

/-- C9: the capacity classification is a pure function of the active
row count: 0 is reported empty, 1 to `MAX_CAPACITY - 1` under capacity,
exactly `MAX_CAPACITY` at capacity, and more than `MAX_CAPACITY` over
capacity. -/
theorem occupancy_classification :
    occupancyStatus 0 = OccupancyStatus.emptyGym ∧
    (∀ n : ℕ, 1 ≤ n → n ≤ MAX_CAPACITY - 1 →
      occupancyStatus n = OccupancyStatus.underCapacity) ∧
    occupancyStatus MAX_CAPACITY = OccupancyStatus.atCapacity ∧
    (∀ n : ℕ, MAX_CAPACITY < n → occupancyStatus n = OccupancyStatus.overCapacity) := by
  refine ⟨rfl, ?_, rfl, ?_⟩
  · intro n h1 h2
    unfold MAX_CAPACITY at h2
    have hn : n = 1 := by omega
    subst hn
    rfl
  · intro n h
    unfold MAX_CAPACITY at h
    unfold occupancyStatus MAX_CAPACITY
    rw [if_pos (by omega : n > 2)]

/-- Witness for C9 at occupancies 1 and 3. -/
theorem occupancy_classification_witness :
    occupancyStatus 1 = OccupancyStatus.underCapacity ∧
    occupancyStatus 3 = OccupancyStatus.overCapacity :=
  ⟨occupancy_classification.2.1 1 (by decide) (by decide),
   occupancy_classification.2.2.2 3 (by decide)⟩

/-- C5: a login attempt with an empty name, an empty lab, or a name
already among the active names fails with the corresponding distinct
validation error, and the store is returned unchanged (no row is
appended to either table). -/
theorem login_rejects_invalid (utcNow : ℤ) (nameInput labInput : String)
    (durInput : ℤ) (st : StoreState) :
    (nameInput.length = 0 →
      login utcNow nameInput labInput durInput st = (some LoginError.emptyName, st)) ∧
    (nameInput.length ≠ 0 → labInput.length = 0 →
      login utcNow nameInput labInput durInput st = (some LoginError.emptyLab, st)) ∧
    (nameInput.length ≠ 0 → labInput.length ≠ 0 →
      st.active.any (fun s => s.name == nameInput) = true →
      login utcNow nameInput labInput durInput st = (some LoginError.duplicateName, st)) := by
  refine ⟨fun h1 => ?_, fun h1 h2 => ?_, fun h1 h2 h3 => ?_⟩ <;> simp [login, *]

/-- Witness for C5: the three rejection cases on a concrete store. -/
theorem login_rejects_invalid_witness :
    login 0 "" "L" 30 stOne = (some LoginError.emptyName, stOne) ∧
    login 0 "B" "" 30 stOne = (some LoginError.emptyLab, stOne) ∧
    login 0 "A" "L" 30 stOne = (some LoginError.duplicateName, stOne) :=
  ⟨(login_rejects_invalid 0 "" "L" 30 stOne).1 rfl,
   (login_rejects_invalid 0 "B" "" 30 stOne).2.1 (by decide) rfl,
   (login_rejects_invalid 0 "A" "L" 30 stOne).2.2 (by decide) (by decide) (by decide)⟩

/-- C6: a valid login appends exactly one row to each table; both rows
carry `start = datetime_now(TIMEZONE_OFFSET)`,
`finish_estimation = start + duration` and identical name, lab and
duration fields (so in particular matching `name` and `start`), and the
log row's `finish_actual` and `duration_actual` are absent. -/
theorem login_success (utcNow : ℤ) (nameInput labInput : String) (durInput : ℤ)
    (st : StoreState) (h1 : nameInput.length ≠ 0) (h2 : labInput.length ≠ 0)
    (h3 : st.active.any (fun s => s.name == nameInput) = false) :
    login utcNow nameInput labInput durInput st =
      (none,
       ⟨st.active ++
          [⟨nameInput, labInput, datetime_now TIMEZONE_OFFSET utcNow,
            datetime_now TIMEZONE_OFFSET utcNow + durInput * 60, durInput⟩],
        st.log ++
          [⟨nameInput, labInput, datetime_now TIMEZONE_OFFSET utcNow,
            datetime_now TIMEZONE_OFFSET utcNow + durInput * 60, durInput, none, none⟩]⟩) ∧
    (login utcNow nameInput labInput durInput st).2.active.length = st.active.length + 1 ∧
    (login utcNow nameInput labInput durInput st).2.log.length = st.log.length + 1 := by
  have he : login utcNow nameInput labInput durInput st =
      (none,
       ⟨st.active ++
          [⟨nameInput, labInput, datetime_now TIMEZONE_OFFSET utcNow,
            datetime_now TIMEZONE_OFFSET utcNow + durInput * 60, durInput⟩],
        st.log ++
          [⟨nameInput, labInput, datetime_now TIMEZONE_OFFSET utcNow,
            datetime_now TIMEZONE_OFFSET utcNow + durInput * 60, durInput, none, none⟩]⟩) := by
    simp [login, h1, h2, h3]
  refine ⟨he, ?_, ?_⟩ <;> rw [he] <;> simp

/-- Witness for C6: a valid login on the empty store grows each table
from 0 to 1 row. -/
theorem login_success_witness :
    (login 0 "A" "L" 30 (⟨[], []⟩ : StoreState)).2.active.length =
      (⟨[], []⟩ : StoreState).active.length + 1 ∧
    (login 0 "A" "L" 30 (⟨[], []⟩ : StoreState)).2.log.length =
      (⟨[], []⟩ : StoreState).log.length + 1 :=
  ⟨(login_success 0 "A" "L" 30 ⟨[], []⟩ (by decide) (by decide) rfl).2.1,
   (login_success 0 "A" "L" 30 ⟨[], []⟩ (by decide) (by decide) rfl).2.2⟩

/-- C10: when the duration input satisfies the widget minimum
(`min_value = 10`), every row of either table after a login attempt is
either a pre-existing row or carries `duration_estimation` at least 10,
so no session or log entry is ever created with a smaller estimate. -/
theorem login_duration_minimum (utcNow : ℤ) (nameInput labInput : String)
    (durInput : ℤ) (st : StoreState) (hd : durInputMinValue ≤ durInput) :
    (∀ s ∈ (login utcNow nameInput labInput durInput st).2.active,
      s ∈ st.active ∨ durInputMinValue ≤ s.duration_estimation) ∧
    (∀ e ∈ (login utcNow nameInput labInput durInput st).2.log,
      e ∈ st.log ∨ durInputMinValue ≤ e.duration_estimation) := by
  unfold login
  split_ifs with h1 h2 h3
  · exact ⟨fun s hs => Or.inl hs, fun e he => Or.inl he⟩
  · exact ⟨fun s hs => Or.inl hs, fun e he => Or.inl he⟩
  · exact ⟨fun s hs => Or.inl hs, fun e he => Or.inl he⟩
  · constructor
    · intro s hs
      rcases List.mem_append.mp hs with h | h
      · exact Or.inl h
      · right
        rw [List.mem_singleton.mp h]
        exact hd
    · intro e he
      rcases List.mem_append.mp he with h | h
      · exact Or.inl h
      · right
        rw [List.mem_singleton.mp h]
        exact hd

/-- Witness for C10: the session created by a valid login with the
default duration 30 on the empty store. -/
theorem login_duration_minimum_witness :
    (⟨"A", "L", 32400, 34200, 30⟩ : Session) ∈ (⟨[], []⟩ : StoreState).active ∨
    durInputMinValue ≤ (⟨"A", "L", 32400, 34200, 30⟩ : Session).duration_estimation :=
  (login_duration_minimum 0 "A" "L" 30 ⟨[], []⟩ (by decide)).1
    ⟨"A", "L", 32400, 34200, 30⟩ (by decide)

/-- C2: logging out a name that is present in the active table fails
with the log-entry-not-found error whenever no log row matches the pair
of name and start taken from the matching active row; the failure occurs
before any worksheet write, so both tables are returned unchanged and no
store operation is issued. -/
theorem logout_log_not_found (utcNow : ℤ) (nameLogout : String) (st : StoreState)
    (ai : ℕ) (h1 : firstIdx? (fun s => s.name == nameLogout) st.active = some ai)
    (h2 : firstIdx?
        (fun e => e.name == nameLogout && e.start == (st.active.getD ai default).start)
        st.log = none) :
    logout utcNow nameLogout st = (some LogoutError.logNotFound, st, []) := by
  simp only [logout, h1, h2]

/-- Witness for C2: the drifted store whose active session has no
matching log row. -/
theorem logout_log_not_found_witness :
    logout 0 "A" stDrift = (some LogoutError.logNotFound, stDrift, []) :=
  logout_log_not_found 0 "A" stDrift 0 (by decide) (by decide)

/-- C3: at logout of a present name, with the clock not earlier than the
session start read from the matching active row, the computed
`duration_actual` (truncating division of the seconds difference by 60)
is nonnegative and coincides with the floor of the difference between
`finish_actual = datetime_now(TIMEZONE_OFFSET)` and `start` expressed in
whole minutes. -/
theorem logout_duration_actual_spec (utcNow : ℤ) (nameLogout : String)
    (st : StoreState) (ai : ℕ)
    (_h1 : firstIdx? (fun s => s.name == nameLogout) st.active = some ai)
    (hmono : (st.active.getD ai default).start ≤ datetime_now TIMEZONE_OFFSET utcNow) :
    0 ≤ durationActual (datetime_now TIMEZONE_OFFSET utcNow)
        (st.active.getD ai default).start ∧
    durationActual (datetime_now TIMEZONE_OFFSET utcNow) (st.active.getD ai default).start =
      ⌊((datetime_now TIMEZONE_OFFSET utcNow - (st.active.getD ai default).start : ℤ) : ℚ)
        / 60⌋ := by
  have hd0 : 0 ≤ datetime_now TIMEZONE_OFFSET utcNow - (st.active.getD ai default).start :=
    sub_nonneg.mpr hmono
  constructor
  · exact Int.tdiv_nonneg hd0 (by norm_num)
  · unfold durationActual
    rw [Int.tdiv_eq_ediv hd0 (by norm_num)]
    have hfl := Rat.floor_intCast_div_natCast
      (datetime_now TIMEZONE_OFFSET utcNow - (st.active.getD ai default).start) 60
    simp only [Nat.cast_ofNat] at hfl
    rw [hfl]

/-- Witness for C3: logging out session `A` of `stOne` 45 minutes after
its start. -/
theorem logout_duration_actual_spec_witness :
    0 ≤ durationActual (datetime_now TIMEZONE_OFFSET (-29700))
        ((stOne.active.getD 0 default).start) ∧
    durationActual (datetime_now TIMEZONE_OFFSET (-29700))
        ((stOne.active.getD 0 default).start) =
      ⌊((datetime_now TIMEZONE_OFFSET (-29700) - (stOne.active.getD 0 default).start : ℤ) : ℚ)
        / 60⌋ :=
  logout_duration_actual_spec (-29700) "A" stOne 0 (by decide) (by decide)

/-- C7: a successful logout issues exactly the three store writes in
source order, the two log-row updates first and the active-row deletion
last; the resulting store is the fold of those writes over the initial
store, the active table shrinks by exactly one row, and the targeted log
row ends with both `finish_actual` and `duration_actual` present. -/
theorem logout_log_update_precedes_delete (utcNow : ℤ) (nameLogout : String)
    (st : StoreState) (ai li : ℕ)
    (h1 : firstIdx? (fun s => s.name == nameLogout) st.active = some ai)
    (h2 : firstIdx?
        (fun e => e.name == nameLogout && e.start == (st.active.getD ai default).start)
        st.log = some li) :
    (logout utcNow nameLogout st).1 = none ∧
    (logout utcNow nameLogout st).2.2 =
      [StoreOp.updateLogFinish li (datetime_now TIMEZONE_OFFSET utcNow),
       StoreOp.updateLogDuration li
         (durationActual (datetime_now TIMEZONE_OFFSET utcNow)
           (st.active.getD ai default).start),
       StoreOp.deleteActive ai] ∧
    (logout utcNow nameLogout st).2.1 =
      ((logout utcNow nameLogout st).2.2).foldl applyOp st ∧
    (logout utcNow nameLogout st).2.1.active.length + 1 = st.active.length ∧
    ((logout utcNow nameLogout st).2.1.log.getD li default).finish_actual ≠ none ∧
    ((logout utcNow nameLogout st).2.1.log.getD li default).duration_actual ≠ none := by
  have hai := firstIdx?_lt_length h1
  have hli := firstIdx?_lt_length h2
  have he : logout utcNow nameLogout st =
      (none, (logoutOps utcNow st ai li).foldl applyOp st, logoutOps utcNow st ai li) := by
    simp only [logout, h1, h2]
  have hfold : (logoutOps utcNow st ai li).foldl applyOp st =
      ⟨st.active.eraseIdx ai,
       updateAt
         (updateAt st.log li (setFinishActual (datetime_now TIMEZONE_OFFSET utcNow))) li
         (setDurationActual
           (durationActual (datetime_now TIMEZONE_OFFSET utcNow)
             (st.active.getD ai default).start))⟩ := rfl
  have hli' : li <
      (updateAt st.log li (setFinishActual (datetime_now TIMEZONE_OFFSET utcNow))).length := by
    rw [updateAt_length]
    exact hli
  refine ⟨by rw [he], by rw [he]; rfl, by rw [he], ?_, ?_, ?_⟩
  · rw [he, hfold]
    simp only [List.length_eraseIdx_of_lt hai]
    omega
  · rw [he, hfold]
    simp only [updateAt_getD _ _ _ _ hli', updateAt_getD _ _ _ _ hli]
    simp [setFinishActual, setDurationActual]
  · rw [he, hfold]
    simp only [updateAt_getD _ _ _ _ hli', updateAt_getD _ _ _ _ hli]
    simp [setFinishActual, setDurationActual]

/-- Witness for C7: logging out session `A` of the consistent one-entry
store. -/
theorem logout_log_update_precedes_delete_witness :
    (logout (-29700) "A" stOne).1 = none ∧
    (logout (-29700) "A" stOne).2.1.active.length + 1 = stOne.active.length :=
  ⟨(logout_log_update_precedes_delete (-29700) "A" stOne 0 0 (by decide) (by decide)).1,
   (logout_log_update_precedes_delete (-29700) "A" stOne 0 0
      (by decide) (by decide)).2.2.2.1⟩

/-- C8 counterexample: the claim states that with an empty active set no
logout attempt, mutation or crash can occur.  In the code the Logout
button is rendered unconditionally (only the duration display sits
behind the emptiness guard), and pressing it with an empty active table
runs the handler, which fails with an index error: the attempt does
occur and does crash. -/
theorem logout_button_unguarded_on_empty :
    ¬ (logoutButtonRendered ⟨[], []⟩ = false ∨
       (tab3LogoutPress 0 (⟨[], []⟩ : StoreState)).1 = none) := by
  decide

/-- C8 amended: with an empty active set the Logout button can still be
pressed; the press fails with an index error before any worksheet write,
so no store operation is issued and both tables are unchanged — but the
interface does not prevent the attempt or the failure. -/
theorem logout_press_empty_no_mutation (utcNow : ℤ) :
    tab3LogoutPress utcNow ⟨[], []⟩ =
      (some LogoutError.noActiveRow, (⟨[], []⟩ : StoreState), []) :=
  rfl

end GymOccupancy
